import Mathlib

set_option maxHeartbeats 1000000

/-!
Shallow embedding of the Output Delivery Subsystem of cb-event-forwarder,
specifically `src/pkg/outputs/net_output.go` (the `NetOutput` sink).

Modelling conventions:
- `net.Conn` handles are `Option Nat` (`none` models a nil Go interface value).
- Side effects on the transport and log reports are recorded as a trace of
  `SinkEvent` values (`close`, `write`, `reportDropped`).
- Timestamps are `Nat` (seconds); `time.Now()` is passed in as a `now` argument.
- Fallible calls return `Option _`; `none` models a Go runtime panic
  (index out of range, method call on a nil interface).
- `net.Dial` results are an oracle argument `dial : Option Nat`
  (`some h` = fresh connected handle `h`, `none` = dial error; in Go the
  assignment `o.outputSocket, err = net.Dial(...)` stores nil on error).
- A `Write` outcome is the oracle `WriteResult` (`ok` or `fail`).
- Returned `error` values are modelled as a `Bool` (`true` = non-nil error).
-/

structure Configuration where
  DryRun : Bool
deriving DecidableEq, Repr

inductive SinkEvent where
  | close (h : Nat)
  | write (h : Nat) (data : String)
  | reportDropped (n : Int)
deriving DecidableEq, Repr

inductive WriteResult where
  | ok
  | fail
deriving DecidableEq, Repr

/-- State of a `NetOutput` sink, mirroring the Go struct field by field
(the embedded `sync.RWMutex` has no sequential content and is omitted). -/
structure NetOutput where
  netConn : String
  remoteHostname : String
  protocolName : String
  outputSocket : Option Nat
  addNewline : Bool
  connectTime : Nat
  reconnectTime : Nat
  connected : Bool
  droppedEventCount : Int
  droppedEventSinceConnection : Int
  Config : Configuration
deriving DecidableEq, Repr

def defaultConfig : Configuration := { DryRun := false }

/-- Go: `NewNetOutputfromConfig` returns `&NetOutput{Config: cfg}`; every other
field takes its zero value. -/
def NewNetOutputfromConfig (cfg : Configuration) : NetOutput :=
  { netConn := "", remoteHostname := "", protocolName := "", outputSocket := none,
    addNewline := false, connectTime := 0, reconnectTime := 0, connected := false,
    droppedEventCount := 0, droppedEventSinceConnection := 0, Config := cfg }

def initialNetOutput : NetOutput := NewNetOutputfromConfig defaultConfig

/-- Mirror of the Go `NetStatistics` struct returned by `Statistics()`. -/
structure NetStatistics where
  LastOpenTime : Nat
  Protocol : String
  RemoteHostname : String
  DroppedEventCount : Int
  Connected : Bool
deriving DecidableEq, Repr

/-- Core of `strings.SplitN(s, ":", 2)`: split at the first colon.
`none` means the list holds no colon (so `SplitN` returns a 1-element slice). -/
def splitChars : List Char → Option (List Char × List Char)
  | [] => none
  | c :: cs =>
    if c = ':' then some ([], cs)
    else
      match splitChars cs with
      | none => none
      | some (a, b) => some (c :: a, b)

/-- `strings.SplitN(s, ":", 2)` as used by `Initialize`: `some (before, after)`
when a colon exists, `none` when the result would have length 1 (in which case
the Go code's access `connSpecification[1]` panics). -/
def splitFirstColon (s : String) : Option (String × String) :=
  match splitChars s.data with
  | none => none
  | some (a, b) => some (String.mk a, String.mk b)

/-- Go `strings.HasPrefix(s, pre)` on character lists (first arg the string,
second the candidate leading segment). -/
def goStartsWith : List Char → List Char → Bool
  | _, [] => true
  | [], _ :: _ => false
  | c :: cs, p :: ps => (c == p) && goStartsWith cs ps

def tcpChars : List Char := ['t', 'c', 'p']

/-- Go `markConnected`: records `connectTime`, sets `connected`, and when the
running drop total differs from the count at the previous connection, reports
the difference and resets the since-connection counter to the running total.
Returns the new state plus the report trace. -/
def markConnected (o : NetOutput) (now : Nat) : NetOutput × List SinkEvent :=
  let o1 : NetOutput := { o with connectTime := now, connected := true }
  if o1.droppedEventCount ≠ o1.droppedEventSinceConnection then
    ({ o1 with droppedEventSinceConnection := o1.droppedEventCount },
      [SinkEvent.reportDropped (o1.droppedEventCount - o1.droppedEventSinceConnection)])
  else
    (o1, [])

/-- First statement of Go `Initialize`: `if o.connected { o.outputSocket.Close() }`.
Calling `Close` on a nil interface panics, hence the `none` case. -/
def closeTrace (o : NetOutput) : Option (List SinkEvent) :=
  if o.connected then
    match o.outputSocket with
    | none => none
    | some h => some [SinkEvent.close h]
  else some []

/-- Go `Initialize(netConn string) error`. Closes any prior socket when
connected, stores the specification, splits it on the first colon (panicking
when there is none), sets `addNewline` when the protocol name has leading
"tcp" (never clearing it otherwise), dials, and on success runs
`markConnected`; on dial error the socket field holds nil and the error is
returned, with `connected` left untouched. -/
def Initialize (o : NetOutput) (spec : String) (dial : Option Nat) (now : Nat) :
    Option (NetOutput × List SinkEvent × Bool) :=
  match closeTrace o with
  | none => none
  | some ctr =>
    match splitFirstColon spec with
    | none => none
    | some (proto, host) =>
      let o1 : NetOutput :=
        { o with netConn := spec, protocolName := proto, remoteHostname := host,
                 addNewline := if goStartsWith proto.data tcpChars then true else o.addNewline }
      match dial with
      | none => some ({ o1 with outputSocket := none }, ctr, true)
      | some h =>
        let p := markConnected { o1 with outputSocket := some h } now
        some (p.1, ctr ++ p.2, false)

/-- Go `closeAndScheduleReconnection`: when connected, closes the socket and
clears `connected`; always sets `reconnectTime = now + 5` (5 seconds). -/
def closeAndScheduleReconnection (o : NetOutput) (now : Nat) : Option (NetOutput × List SinkEvent) :=
  if o.connected then
    match o.outputSocket with
    | none => none
    | some h => some ({ o with connected := false, reconnectTime := now + 5 }, [SinkEvent.close h])
  else
    some ({ o with reconnectTime := now + 5 }, [])

def crlf : String := "\r\n"

/-- The framing applied at the top of Go `output`: `if o.addNewline { m += "\r\n" }`. -/
def framed (o : NetOutput) (m : String) : String :=
  if o.addNewline then m ++ crlf else m

/-- Go `output(m string) error`. While not connected the message is dropped:
the drop counter is incremented and nil is returned, with no write. While
connected the (possibly framed) bytes are written; on write error the sink is
closed and reconnection scheduled, and the error is returned. -/
def output (o : NetOutput) (m : String) (wr : WriteResult) (now : Nat) :
    Option (NetOutput × List SinkEvent × Bool) :=
  if o.connected then
    match o.outputSocket with
    | none => none
    | some h =>
      match wr with
      | WriteResult.ok => some (o, [SinkEvent.write h (framed o m)], false)
      | WriteResult.fail =>
        match closeAndScheduleReconnection o now with
        | none => none
        | some p => some (p.1, SinkEvent.write h (framed o m) :: p.2, true)
  else
    some ({ o with droppedEventCount := o.droppedEventCount + 1 }, [], false)

/-- The message case of the control loop in Go `Go`: run `output` and log the
error unless `o.Config.DryRun` is set. The final `Bool` records whether an
error was logged. -/
def handleMessage (o : NetOutput) (m : String) (wr : WriteResult) (now : Nat) :
    Option (NetOutput × List SinkEvent × Bool) :=
  match output o m wr now with
  | none => none
  | some r => some (r.1, r.2.1, r.2.2 && !o.Config.DryRun)

def NetOutput.Key (o : NetOutput) := o.netConn

def NetOutput.String (o : NetOutput) := o.netConn

def NetOutput.Statistics (o : NetOutput) : NetStatistics :=
  { LastOpenTime := o.connectTime, Protocol := o.protocolName,
    RemoteHostname := o.remoteHostname, DroppedEventCount := o.droppedEventCount,
    Connected := o.connected }

/-- The guard at the top of Go `Go`: `true` means `o.outputSocket == nil` and
the method returns the "Output socket not open" error without starting the
loop; `false` means it starts the control loop and returns nil. -/
def NetOutput.Go (o : NetOutput) : Bool := o.outputSocket.isNone

/-- Chain `Initialize` calls on an optional state, keeping only the state. -/
def stepInit (s : Option NetOutput) (spec : String) (dial : Option Nat) (now : Nat) :
    Option NetOutput :=
  match s with
  | none => none
  | some o =>
    match Initialize o spec dial now with
    | none => none
    | some r => some r.1

/-- Run a history of `Initialize` calls (spec, dial outcome, time), tracking
whether any call so far returned no error. -/
def runInitsAcc (o : NetOutput) (succeededBefore : Bool) :
    List (String × Option Nat × Nat) → Option (NetOutput × Bool)
  | [] => some (o, succeededBefore)
  | ev :: rest =>
    match Initialize o ev.1 ev.2.1 ev.2.2 with
    | none => none
    | some r => runInitsAcc r.1 (succeededBefore || !r.2.2) rest

/-- Whether the dial of the last event of a history succeeded; `b` is the
answer for the empty history. -/
def lastStatus : List (String × Option Nat × Nat) → Bool → Bool
  | [], b => b
  | ev :: rest, _ => lastStatus rest ev.2.1.isSome

/-- Erase the configuration field, to compare sink states up to configuration. -/
def stripCfg (o : NetOutput) : NetOutput := { o with Config := defaultConfig }

/-- A concrete connected sink (as after a successful tcp dial with some drops). -/
def sampleConnected : NetOutput :=
  { netConn := "tcp:a:1", remoteHostname := "a:1", protocolName := "tcp",
    outputSocket := some 5, addNewline := true, connectTime := 2, reconnectTime := 0,
    connected := true, droppedEventCount := 4, droppedEventSinceConnection := 1,
    Config := defaultConfig }

/-- A fresh sink that has already dropped events 1..3 (two since last connect). -/
def c5pre : NetOutput :=
  { initialNetOutput with droppedEventCount := 3, droppedEventSinceConnection := 1 }

/-- The state `Initialize c5pre "tcp:a:1" (some 2) 7` produces. -/
def c5post : NetOutput :=
  { netConn := "tcp:a:1", remoteHostname := "a:1", protocolName := "tcp",
    outputSocket := some 2, addNewline := true, connectTime := 7, reconnectTime := 0,
    connected := true, droppedEventCount := 3, droppedEventSinceConnection := 3,
    Config := defaultConfig }

/-- The state a failed dial `Initialize initialNetOutput "tcp:a:1" none 0` produces. -/
def c3post : NetOutput :=
  { netConn := "tcp:a:1", remoteHostname := "a:1", protocolName := "tcp",
    outputSocket := none, addNewline := true, connectTime := 0, reconnectTime := 0,
    connected := false, droppedEventCount := 0, droppedEventSinceConnection := 0,
    Config := defaultConfig }

/-- The state `Initialize initialNetOutput "tcp:h:1" (some 1) 0` produces. -/
def c7o1 : NetOutput :=
  { netConn := "tcp:h:1", remoteHostname := "h:1", protocolName := "tcp",
    outputSocket := some 1, addNewline := true, connectTime := 0, reconnectTime := 0,
    connected := true, droppedEventCount := 0, droppedEventSinceConnection := 0,
    Config := defaultConfig }

/-- The state `Initialize initialNetOutput "udp:a" (some 1) 0` produces. -/
def c6post : NetOutput :=
  { netConn := "udp:a", remoteHostname := "a", protocolName := "udp",
    outputSocket := some 1, addNewline := false, connectTime := 0, reconnectTime := 0,
    connected := true, droppedEventCount := 0, droppedEventSinceConnection := 0,
    Config := defaultConfig }

/-- The state a failed dial `Initialize initialNetOutput "tcp:b:2" none 3` produces. -/
def c10post : NetOutput :=
  { netConn := "tcp:b:2", remoteHostname := "b:2", protocolName := "tcp",
    outputSocket := none, addNewline := true, connectTime := 0, reconnectTime := 0,
    connected := false, droppedEventCount := 0, droppedEventSinceConnection := 0,
    Config := defaultConfig }

/-! Helper lemmas about the colon split. -/

theorem splitChars_not_mem : ∀ (l : List Char), ':' ∉ l → splitChars l = none := by
  intro l h
  induction l with
  | nil => rfl
  | cons c cs ih =>
    rw [List.mem_cons, not_or] at h
    simp only [splitChars, if_neg (Ne.symm h.1), ih h.2]

theorem splitChars_first : ∀ (p r : List Char), ':' ∉ p → splitChars (p ++ ':' :: r) = some (p, r) := by
  intro p r h
  induction p with
  | nil => simp [splitChars]
  | cons c cs ih =>
    rw [List.mem_cons, not_or] at h
    rw [List.cons_append]
    simp only [splitChars, if_neg (Ne.symm h.1)]
    rw [ih h.2]

theorem splitFirstColon_none (s : String) (h : ':' ∉ s.data) : splitFirstColon s = none := by
  simp [splitFirstColon, splitChars_not_mem s.data h]

theorem splitFirstColon_first (p r : List Char) (h : ':' ∉ p) :
    splitFirstColon (String.mk (p ++ ':' :: r)) = some (String.mk p, String.mk r) := by
  simp [splitFirstColon, splitChars_first p r h]

/-- Claim C1: while the sink is Disconnected (`connected = false`), `output`
discards the message: `droppedEventCount` increases by exactly 1, no write to
the transport occurs (empty trace), and no error is returned. -/
theorem C1_output_disconnected_drops (o : NetOutput) (m : String) (wr : WriteResult) (now : Nat)
    (h : o.connected = false) :
    output o m wr now =
      some ({ o with droppedEventCount := o.droppedEventCount + 1 }, [], false) := by
  simp [output, h]

/-- Witness for C1 at a concrete disconnected sink. -/
theorem C1_output_disconnected_drops_witness :
    output initialNetOutput "hello" WriteResult.ok 3 =
      some ({ initialNetOutput with
                droppedEventCount := initialNetOutput.droppedEventCount + 1 }, [], false) :=
  C1_output_disconnected_drops initialNetOutput "hello" WriteResult.ok 3 rfl

/-- Claim C4: whenever a write on a Connected sink fails, the sink closes the
transport, clears `connected`, sets `reconnectTime` to the failure time plus 5
seconds, and returns the write error; the trace shows the single write attempt
(no retry of the message) followed by the close. -/
theorem C4_write_failure_transition (o : NetOutput) (m : String) (hh now : Nat)
    (hc : o.connected = true) (hs : o.outputSocket = some hh) :
    output o m WriteResult.fail now =
      some ({ o with connected := false, reconnectTime := now + 5 },
        [SinkEvent.write hh (framed o m), SinkEvent.close hh], true) := by
  simp [output, closeAndScheduleReconnection, hc, hs]

/-- Witness for C4 at a concrete connected sink. -/
theorem C4_write_failure_transition_witness :
    output sampleConnected "ev" WriteResult.fail 10 =
      some ({ sampleConnected with connected := false, reconnectTime := 10 + 5 },
        [SinkEvent.write 5 (framed sampleConnected "ev"), SinkEvent.close 5], true) :=
  C4_write_failure_transition sampleConnected "ev" 5 10 rfl rfl

/-- Claim C9: the drop counter is incremented exactly when the message is
offered while the sink is Disconnected; in particular a message whose write
fails on a Connected sink leaves `droppedEventCount` unchanged (it is lost
without being counted). -/
theorem C9_drop_count_only_when_disconnected (o : NetOutput) (m : String) (wr : WriteResult)
    (now : Nat) (o' : NetOutput) (tr : List SinkEvent) (e : Bool)
    (h : output o m wr now = some (o', tr, e)) :
    o'.droppedEventCount =
      if o.connected then o.droppedEventCount else o.droppedEventCount + 1 := by
  cases hc : o.connected <;> cases hs : o.outputSocket <;> cases wr <;>
      simp [output, closeAndScheduleReconnection, hc, hs] at h <;>
    obtain ⟨h1, h2, h3⟩ := h <;> subst_vars <;> simp [hc]

/-- Witness for C9 on the write-failure path of a concrete connected sink:
the counter stays at 4. -/
theorem C9_drop_count_only_when_disconnected_witness :
    ({ sampleConnected with
        connected := false,
        reconnectTime := 1 + 5 } : NetOutput).droppedEventCount =
      if sampleConnected.connected then sampleConnected.droppedEventCount
      else sampleConnected.droppedEventCount + 1 :=
  C9_drop_count_only_when_disconnected sampleConnected "m" WriteResult.fail 1
    { sampleConnected with connected := false, reconnectTime := 1 + 5 }
    [SinkEvent.write 5 (framed sampleConnected "m"), SinkEvent.close 5] true (by decide)

/-- Claim C5: on every successful dial in `Initialize`, the sink records
`connectTime`, sets `connected`, and, when the count of events dropped since
the last successful connection is nonzero, reports that count and resets
`droppedEventSinceConnection` to the running `droppedEventCount` total. -/
theorem C5_successful_dial_marks_connected (o : NetOutput) (spec : String) (hh t : Nat)
    (o' : NetOutput) (tr : List SinkEvent) (e : Bool)
    (h : Initialize o spec (some hh) t = some (o', tr, e)) :
    e = false ∧ o'.connectTime = t ∧ o'.connected = true ∧ o'.outputSocket = some hh ∧
      (o.droppedEventCount ≠ o.droppedEventSinceConnection →
        SinkEvent.reportDropped (o.droppedEventCount - o.droppedEventSinceConnection) ∈ tr ∧
          o'.droppedEventSinceConnection = o.droppedEventCount) ∧
      (o.droppedEventCount = o.droppedEventSinceConnection →
        o'.droppedEventSinceConnection = o.droppedEventSinceConnection) := by
  cases hct : closeTrace o with
  | none => simp [Initialize, hct] at h
  | some ctr =>
    cases hsp : splitFirstColon spec with
    | none => simp [Initialize, hct, hsp] at h
    | some pr =>
      obtain ⟨proto, host⟩ := pr
      by_cases hd : o.droppedEventCount = o.droppedEventSinceConnection
      · simp [Initialize, hct, hsp, markConnected, hd] at h
        obtain ⟨h1, h2, h3⟩ := h
        subst_vars
        simp [hd]
      · simp [Initialize, hct, hsp, markConnected, hd] at h
        obtain ⟨h1, h2, h3⟩ := h
        subst_vars
        simp [hd]

/-- Witness for C5: a sink that dropped 3 events (1 before the last connect)
reconnects; the report carries 2 and the since-connection counter becomes 3. -/
theorem C5_successful_dial_marks_connected_witness :
    false = false ∧ c5post.connectTime = 7 ∧ c5post.connected = true ∧
      c5post.outputSocket = some 2 ∧
      (c5pre.droppedEventCount ≠ c5pre.droppedEventSinceConnection →
        SinkEvent.reportDropped (c5pre.droppedEventCount - c5pre.droppedEventSinceConnection) ∈
            [SinkEvent.reportDropped 2] ∧
          c5post.droppedEventSinceConnection = c5pre.droppedEventCount) ∧
      (c5pre.droppedEventCount = c5pre.droppedEventSinceConnection →
        c5post.droppedEventSinceConnection = c5pre.droppedEventSinceConnection) :=
  C5_successful_dial_marks_connected c5pre "tcp:a:1" 2 7 c5post
    [SinkEvent.reportDropped 2] false (by decide)

/-- Claim C3 as stated is false: `Initialize` never clears `connected` on a
dial failure, so a sink that was Connected before the call ends with
`connected = true` while its transport handle is nil — the Connected-implies-
valid-handle invariant is broken and the sink is not left Disconnected. The
state is reached by a successful dial followed by a failed re-dial. -/
theorem C3_counterexample :
    ((stepInit (some initialNetOutput) "tcp:a:1" (some 7) 10).bind
        (fun o => Initialize o "tcp:a:1" none 20)).map
      (fun r => (r.2.2, r.1.connected, r.1.outputSocket)) = some (true, true, none) := by
  decide

/-- Claim C3 (amended): when `Initialize`'s dial fails on a sink that was
Disconnected before the call, the error is surfaced and the sink stays
Disconnected (`connected = false`, so the handle-validity invariant holds);
the original claim's "regardless of whether the sink was connected before"
does not hold (see the counterexample). -/
theorem C3_dial_failure_disconnected_amended (o : NetOutput) (s : String) (t : Nat)
    (o' : NetOutput) (tr : List SinkEvent) (e : Bool)
    (hnc : o.connected = false)
    (h : Initialize o s none t = some (o', tr, e)) :
    e = true ∧ o'.connected = false ∧ o'.outputSocket = none := by
  cases hsp : splitFirstColon s with
  | none => simp [Initialize, closeTrace, hnc, hsp] at h
  | some pr =>
    obtain ⟨proto, host⟩ := pr
    simp [Initialize, closeTrace, hnc, hsp] at h
    obtain ⟨h1, h2, h3⟩ := h
    subst_vars
    simp [hnc]

/-- Witness for the amended C3 at a concrete disconnected sink. -/
theorem C3_dial_failure_disconnected_amended_witness :
    true = true ∧ c3post.connected = false ∧ c3post.outputSocket = none :=
  C3_dial_failure_disconnected_amended initialNetOutput "tcp:a:1" 0 c3post [] true
    rfl (by decide)

/-- Claim C10: `Initialize` overwrites the stored specification, protocol name
and remote hostname before dialing, so after a failed dial `Key()`, `String()`
and `Statistics()` report the newly attempted target (identity fields are not
restored on error). -/
theorem C10_identity_overwritten_on_failure (o : NetOutput) (p r : List Char) (t : Nat)
    (o' : NetOutput) (tr : List SinkEvent) (e : Bool)
    (hp : ':' ∉ p)
    (h : Initialize o (String.mk (p ++ ':' :: r)) none t = some (o', tr, e)) :
    e = true ∧ o'.netConn = String.mk (p ++ ':' :: r) ∧ o'.protocolName = String.mk p ∧
      o'.remoteHostname = String.mk r ∧ NetOutput.Key o' = String.mk (p ++ ':' :: r) ∧
      NetOutput.String o' = String.mk (p ++ ':' :: r) ∧
      (NetOutput.Statistics o').Protocol = String.mk p ∧
      (NetOutput.Statistics o').RemoteHostname = String.mk r := by
  cases hct : closeTrace o with
  | none => simp [Initialize, hct] at h
  | some ctr =>
    simp [Initialize, hct, splitFirstColon_first p r hp] at h
    obtain ⟨h1, h2, h3⟩ := h
    subst_vars
    simp [NetOutput.Key, NetOutput.String, NetOutput.Statistics]

/-- Witness for C10 at a failed dial to tcp:b:2 from a fresh sink. -/
theorem C10_identity_overwritten_on_failure_witness :
    true = true ∧ c10post.netConn = String.mk (['t', 'c', 'p'] ++ ':' :: ['b', ':', '2']) ∧
      c10post.protocolName = String.mk ['t', 'c', 'p'] ∧
      c10post.remoteHostname = String.mk ['b', ':', '2'] ∧
      NetOutput.Key c10post = String.mk (['t', 'c', 'p'] ++ ':' :: ['b', ':', '2']) ∧
      NetOutput.String c10post = String.mk (['t', 'c', 'p'] ++ ':' :: ['b', ':', '2']) ∧
      (NetOutput.Statistics c10post).Protocol = String.mk ['t', 'c', 'p'] ∧
      (NetOutput.Statistics c10post).RemoteHostname = String.mk ['b', ':', '2'] :=
  C10_identity_overwritten_on_failure initialNetOutput ['t', 'c', 'p'] ['b', ':', '2'] 3
    c10post [] true (by decide) (by decide)

/-- Claim C2 as stated is false in its error-reporting half: on a
specification with no colon, `strings.SplitN` yields a one-element slice and
the access `connSpecification[1]` panics (modelled as `none`), so `Initialize`
crashes instead of returning a configuration error. -/
theorem C2_counterexample : Initialize initialNetOutput "tcpserver" (some 1) 0 = none := by
  decide

/-- Claim C2 (amended): `Initialize` splits the specification on the first
colon only (the remote target may itself contain colons), but a specification
containing no colon makes `Initialize` panic with an out-of-range index (a
crash), rather than report an error. -/
theorem C2_split_first_colon_amended :
    (∀ (o : NetOutput) (p r : List Char) (d : Option Nat) (t : Nat),
        ':' ∉ p → (o.connected = true → o.outputSocket.isSome = true) →
        (Initialize o (String.mk (p ++ ':' :: r)) d t).map
            (fun x => (x.1.protocolName, x.1.remoteHostname)) =
          some (String.mk p, String.mk r)) ∧
    (∀ (o : NetOutput) (s : String) (d : Option Nat) (t : Nat),
        ':' ∉ s.data → Initialize o s d t = none) := by
  constructor
  · intro o p r d t hp hc
    have hct : ∃ ctr, closeTrace o = some ctr := by
      unfold closeTrace
      cases hcon : o.connected
      · exact ⟨[], by simp⟩
      · cases hs : o.outputSocket with
        | none =>
          have := hc hcon
          rw [hs] at this
          simp at this
        | some hh => exact ⟨[SinkEvent.close hh], by simp⟩
    obtain ⟨ctr, hct⟩ := hct
    cases d with
    | none => simp [Initialize, hct, splitFirstColon_first p r hp]
    | some hh =>
      by_cases hd : o.droppedEventCount = o.droppedEventSinceConnection <;>
        simp [Initialize, hct, splitFirstColon_first p r hp, markConnected, hd]
  · intro o s d t hs
    cases hct : closeTrace o with
    | none => simp [Initialize, hct]
    | some ctr => simp [Initialize, hct, splitFirstColon_none s hs]

/-- Witness for the amended C2: "udp:a:1" parses to protocol "udp" and remote
"a:1"; "tcpserver" (no colon) panics. -/
theorem C2_split_first_colon_amended_witness :
    (Initialize initialNetOutput (String.mk (['u', 'd', 'p'] ++ ':' :: ['a', ':', '1']))
          (some 3) 1).map (fun x => (x.1.protocolName, x.1.remoteHostname)) =
        some (String.mk ['u', 'd', 'p'], String.mk ['a', ':', '1']) ∧
      Initialize initialNetOutput "nocolon" none 2 = none :=
  ⟨C2_split_first_colon_amended.1 initialNetOutput ['u', 'd', 'p'] ['a', ':', '1']
      (some 3) 1 (by decide) (by decide),
    C2_split_first_colon_amended.2 initialNetOutput "nocolon" none 2 (by decide)⟩

/-- Claim C6 as stated is false in its datagram half: `addNewline` is set when
a protocol with leading "tcp" is seen but never cleared, so a sink
re-initialized from tcp to udp still appends the CRLF pair to a message sent
over udp. -/
theorem C6_counterexample :
    ((stepInit (stepInit (some initialNetOutput) "tcp:a:1" (some 1) 0) "udp:a:2" (some 2) 1).bind
        (fun o => output o "m" WriteResult.ok 2)).map
      (fun r => (r.1.protocolName, r.2.1)) =
      some ("udp", [SinkEvent.write 2 "m\r\n"]) := by
  decide

/-- Claim C6 (amended): while Connected, a CRLF pair is appended iff the
`addNewline` flag is set; `Initialize` sets the flag when the protocol name
has leading "tcp" and never clears it, so only a sink none of whose
initializations used a tcp protocol transmits raw datagram bytes. -/
theorem C6_framing_amended :
    (∀ (o : NetOutput) (m : String) (hh t : Nat),
        o.connected = true → o.outputSocket = some hh →
        output o m WriteResult.ok t =
          some (o, [SinkEvent.write hh (framed o m)], false)) ∧
    (∀ (o : NetOutput) (p r : List Char) (d : Option Nat) (t : Nat) (o' : NetOutput)
        (tr : List SinkEvent) (e : Bool), ':' ∉ p →
        Initialize o (String.mk (p ++ ':' :: r)) d t = some (o', tr, e) →
        o'.addNewline = (if goStartsWith p tcpChars then true else o.addNewline)) := by
  constructor
  · intro o m hh t hc hs
    simp [output, hc, hs]
  · intro o p r d t o' tr e hp h
    cases hct : closeTrace o with
    | none => simp [Initialize, hct] at h
    | some ctr =>
      cases d with
      | none =>
        simp [Initialize, hct, splitFirstColon_first p r hp] at h
        obtain ⟨h1, h2, h3⟩ := h
        subst_vars
        simp
      | some hh =>
        by_cases hd : o.droppedEventCount = o.droppedEventSinceConnection <;>
          · simp [Initialize, hct, splitFirstColon_first p r hp, markConnected, hd] at h
            obtain ⟨h1, h2, h3⟩ := h
            subst_vars
            simp

/-- Witness for the amended C6: a connected udp-only sink transmits the raw
bytes, and a fresh udp initialization leaves `addNewline` false. -/
theorem C6_framing_amended_witness :
    output c6post "m" WriteResult.ok 4 =
        some (c6post, [SinkEvent.write 1 (framed c6post "m")], false) ∧
      c6post.addNewline =
        (if goStartsWith ['u', 'd', 'p'] tcpChars then true
         else initialNetOutput.addNewline) :=
  ⟨C6_framing_amended.1 c6post "m" 1 4 rfl rfl,
    C6_framing_amended.2 initialNetOutput ['u', 'd', 'p'] ['a'] (some 1) 0 c6post []
      false (by decide) (by decide)⟩

/-- Helper: whenever `Initialize` returns, the stored socket equals the dial
result and the returned error flag records dial failure. -/
theorem Initialize_socket (o : NetOutput) (spec : String) (d : Option Nat) (t : Nat)
    (o' : NetOutput) (tr : List SinkEvent) (e : Bool)
    (h : Initialize o spec d t = some (o', tr, e)) :
    o'.outputSocket = d ∧ e = d.isNone := by
  cases hct : closeTrace o with
  | none => simp [Initialize, hct] at h
  | some ctr =>
    cases hsp : splitFirstColon spec with
    | none => simp [Initialize, hct, hsp] at h
    | some pr =>
      obtain ⟨proto, host⟩ := pr
      cases d with
      | none =>
        simp [Initialize, hct, hsp] at h
        obtain ⟨h1, h2, h3⟩ := h
        subst_vars
        simp
      | some hh =>
        by_cases hd : o.droppedEventCount = o.droppedEventSinceConnection <;>
          · simp [Initialize, hct, hsp, markConnected, hd] at h
            obtain ⟨h1, h2, h3⟩ := h
            subst_vars
            simp

/-- Helper: after a history of `Initialize` calls, the socket is non-nil
exactly when the last call's dial succeeded (with the initial socket state as
the answer for the empty history). -/
theorem runInitsAcc_socket : ∀ (evs : List (String × Option Nat × Nat)) (o : NetOutput)
    (b : Bool) (o' : NetOutput) (ok : Bool), runInitsAcc o b evs = some (o', ok) →
    o'.outputSocket.isSome = lastStatus evs o.outputSocket.isSome := by
  intro evs
  induction evs with
  | nil =>
    intro o b o' ok h
    simp [runInitsAcc] at h
    obtain ⟨h1, h2⟩ := h
    subst_vars
    rfl
  | cons ev rest ih =>
    intro o b o' ok h
    simp only [runInitsAcc] at h
    cases hi : Initialize o ev.1 ev.2.1 ev.2.2 with
    | none => rw [hi] at h; simp at h
    | some r =>
      rw [hi] at h
      have hs := Initialize_socket o ev.1 ev.2.1 ev.2.2 r.1 r.2.1 r.2.2 (by rw [hi])
      have hrest := ih r.1 (b || !r.2.2) o' ok h
      rw [hrest, hs.1]
      rfl

/-- Claim C7 as stated is false: `Go` tests `outputSocket == nil`, and a
failed re-dial stores nil in the socket field, so after a successful
`Initialize` followed by a failed one, `Go` still returns the
NotInitializedError even though `Initialize` has succeeded at least once. -/
theorem C7_counterexample :
    (runInitsAcc initialNetOutput false
        [("tcp:h:1", some 1, 0), ("tcp:h:1", none, 5)]).map
      (fun r => (r.2, NetOutput.Go r.1)) = some (true, true) := by
  decide

/-- Claim C7 (amended): after a history of `Initialize` calls on a fresh sink,
`Go` returns the NotInitializedError iff the history is empty or its most
recent call's dial failed (not iff no call ever succeeded); otherwise it
starts the control loop and returns no error. -/
theorem C7_not_initialized_amended (evs : List (String × Option Nat × Nat))
    (o' : NetOutput) (ok : Bool)
    (h : runInitsAcc initialNetOutput false evs = some (o', ok)) :
    NetOutput.Go o' = true ↔ lastStatus evs false = false := by
  have hs := runInitsAcc_socket evs initialNetOutput false o' ok h
  have hinit : initialNetOutput.outputSocket.isSome = false := rfl
  rw [hinit] at hs
  cases hso : o'.outputSocket with
  | none =>
    rw [hso] at hs
    simp only [Option.isSome_none] at hs
    simp [NetOutput.Go, hso, ← hs]
  | some hh =>
    rw [hso] at hs
    simp only [Option.isSome_some] at hs
    simp [NetOutput.Go, hso, ← hs]

/-- Witness for the amended C7: after one successful dial, `Go` reports no
error and the last-dial status is success. -/
theorem C7_not_initialized_amended_witness :
    NetOutput.Go c7o1 = true ↔ lastStatus [("tcp:h:1", some 1, 0)] false = false :=
  C7_not_initialized_amended [("tcp:h:1", some 1, 0)] c7o1 true (by decide)

/-- Claim C8: the sink-state evolution and the error returned when handling a
message are identical whether or not `DryRun` is set (only the configuration
field itself differs); the flag only gates the error logging, which happens
exactly when `output` returned an error and `DryRun` is unset. -/
theorem C8_dryrun_state_independent :
    ∀ (o : NetOutput) (m : String) (wr : WriteResult) (t : Nat),
      (∀ d₁ d₂ : Bool,
        (handleMessage { o with Config := { DryRun := d₁ } } m wr t).map
            (fun x => (stripCfg x.1, x.2.1)) =
          (handleMessage { o with Config := { DryRun := d₂ } } m wr t).map
            (fun x => (stripCfg x.1, x.2.1))) ∧
      (∀ d : Bool,
        handleMessage { o with Config := { DryRun := d } } m wr t =
          (output { o with Config := { DryRun := d } } m wr t).map
            (fun x => (x.1, x.2.1, x.2.2 && !d))) := by
  intro o m wr t
  constructor
  · intro d1 d2
    cases hc : o.connected <;> cases hs : o.outputSocket <;> cases wr <;>
      simp [handleMessage, output, closeAndScheduleReconnection, stripCfg, framed, hc, hs]
  · intro d
    cases ho : output { o with Config := { DryRun := d } } m wr t with
    | none => simp [handleMessage, ho]
    | some r => simp [handleMessage, ho]
